import Mathlib

/-!
# A shallow embedding of the fslock package

The package provides a cross-process mutex backed by a file. There are two
backends: a POSIX one built on the flock syscall, and a Windows one built on
LockFileEx with overlapped I/O. The embedding below translates each backend's
functions into pure Lean functions. Interactions with the operating system
(the result of a flock call, the elapsed time observed at an iteration, the
outcome of a wait) are passed in as explicit environment parameters, and each
operation additionally returns the list of system-level events it performed,
so that frame properties (which descriptor was touched, what was closed) can
be stated. The poll loop of the POSIX `LockWithTimeout` need not terminate,
so it is given fuel: a result of `none` means the loop was still running when
the fuel ran out.
-/

namespace Fslock

/-! ## The shared error model

The package defines `timeoutError` as a string type implementing Go's
`error` with a `Timeout() bool` method, and the sentinel value `ErrTimeout`.
Every other error the operations can return is an OS `errno` value; the two
are distinct types in Go, so they are distinct constructors here, and
equality of the modelled errors is decidable exactly as Go's `==` on error
values distinguishes them. -/

/-- Message carried by the sentinel, from the source's `ErrTimeout`. -/
def timeoutErrorMsg : String := "lock timeout exceeded"

/-- An error value a function of the package can return: either the
package's own `timeoutError` string type, or an OS error number
(`syscall.Errno`). -/
inductive GoErr where
  | timeout (msg : String)
  | errno (n : Nat)
  deriving DecidableEq, Repr

/-- Method `Error` of `timeoutError`: returns the underlying string. -/
def timeoutErrorText (msg : String) : String := msg

/-- Method `Timeout` of `timeoutError`: always returns `true`. -/
def timeoutErrorTimeout (_ : String) : Bool := true

/-- The sentinel `ErrTimeout` value of the package. -/
def ErrTimeout : GoErr := GoErr.timeout timeoutErrorMsg

/-- Result of a call returning Go's `error`: `none` is Go's `nil`. -/
abbrev GoResult := Option GoErr

/-! ## The POSIX backend

`type Lock int` is a file descriptor; the operations call `flock` on it.
The descriptor is a `Nat` parameter named `fd`. OS interactions are inputs:
`res : Option Nat` is the errno outcome of a single flock call (`none` for
success), `flock : Nat → Option Nat` gives the outcome of the non-blocking
attempt made on loop iteration `i`, and `since : Nat → Int` gives the value
of `time.Since(t)` in nanoseconds observed at iteration `i` (only read for
`0 < i`, because `t` is the zero time until the first iteration sets it). -/

namespace Posix

/-- The errno that `flock(LOCK_EX | LOCK_NB)` reports when the lock is held
by another owner (`syscall.EWOULDBLOCK`). -/
def EWOULDBLOCK : Nat := 11

/-- System-level events the POSIX backend can perform. -/
inductive Ev where
  | flockEx (fd : Nat)
  | flockExNb (fd : Nat)
  | flockUn (fd : Nat)
  | sleepMs (ms : Nat)
  | openPath (path : String)
  | closeFd (fd : Nat)
  deriving DecidableEq, Repr

/-- Modelled from POSIX `open` with `O_CREAT` and without `O_EXCL` (an OS
facility, not package code): a pre-existing file at the path is simply
opened and an absent one is created, so prior existence is never itself an
error; `fd` is the fresh descriptor the OS hands back. -/
def openCreat (_fileExists : Bool) (fd : Nat) : Except Nat Nat :=
  Except.ok fd

/-- Function `New` of the POSIX backend: `syscall.Open(filename,
O_CREAT | O_RDONLY, 0600)`, returning the descriptor as the lock value. -/
def New (fileExists : Bool) (fd : Nat) : Except Nat Nat × List Ev :=
  (openCreat fileExists fd, [Ev.openPath (String.mk [])])

/-- Method `Lock`: a single blocking `flock(fd, LOCK_EX)`, whose errno
outcome `res` is returned as is. -/
def Lock (fd : Nat) (res : Option Nat) : GoResult × List Ev :=
  (res.map GoErr.errno, [Ev.flockEx fd])

/-- Method `Unlock`: a single `flock(fd, LOCK_UN)`, whose errno outcome
`res` is returned as is. -/
def Unlock (fd : Nat) (res : Option Nat) : GoResult × List Ev :=
  (res.map GoErr.errno, [Ev.flockUn fd])

/-- What a finished run of the poll loop returned: Go's `nil`, or an
error value. -/
inductive Outcome where
  | success
  | error (e : GoErr)
  deriving DecidableEq, Repr

/-- The poll loop of `LockWithTimeout`, one case per iteration `i` of the
source's `for` loop. On iteration 0 the zero check on `t` succeeds and `t`
is set, so no deadline check happens; on later iterations the sentinel is
returned when `timeout > 0 && time.Since(t) > timeout`. Otherwise a
non-blocking `flock` is attempted: success returns `nil`, an errno other
than `EWOULDBLOCK` is returned at once, and `EWOULDBLOCK` sleeps 50ms and
retries. The first component is `none` when the fuel ran out with the loop
still running. -/
def lockWithTimeoutLoop (fd : Nat) (timeout : Int) (since : Nat → Int)
    (flock : Nat → Option Nat) : Nat → Nat → Option Outcome × List Ev
  | 0, _ => (none, [])
  | fuel + 1, i =>
    if 0 < i ∧ 0 < timeout ∧ timeout < since i then
      (some (Outcome.error ErrTimeout), [])
    else
      match flock i with
      | none => (some Outcome.success, [Ev.flockExNb fd])
      | some e =>
        if e = EWOULDBLOCK then
          let r := lockWithTimeoutLoop fd timeout since flock fuel (i + 1)
          (r.1, Ev.flockExNb fd :: Ev.sleepMs 50 :: r.2)
        else
          (some (Outcome.error (GoErr.errno e)), [Ev.flockExNb fd])

/-- Method `LockWithTimeout` of the POSIX backend: the poll loop started at
its first iteration. -/
def LockWithTimeout (fd : Nat) (timeout : Int) (since : Nat → Int)
    (flock : Nat → Option Nat) (fuel : Nat) : Option Outcome × List Ev :=
  lockWithTimeoutLoop fd timeout since flock fuel 0

/-- Frame discipline of the POSIX backend: an event is allowed when it is a
flock call on the construction-time descriptor `fd` or a sleep; opening a
path or closing a descriptor is not. -/
def blockingFrameOK (fd : Nat) : Ev → Bool
  | Ev.flockEx f => f == fd
  | Ev.flockExNb f => f == fd
  | Ev.flockUn f => f == fd
  | Ev.sleepMs _ => true
  | Ev.openPath _ => false
  | Ev.closeFd _ => false

end Posix

/-! ## The Windows backend

`type Lock syscall.Handle` is a file handle; the operations issue
`LockFileEx` / `UnlockFileEx` on it, with a per-attempt event object for the
overlapped wait. The handle is `h`, the event object's handle is `e`. OS
interactions are inputs: the errno outcome of `createEvent` and of the
`lockFileEx` wrapper, and the outcome of the wait. -/

namespace Windows

/-- System-level events the Windows backend can perform. -/
inductive WEv where
  | createFile (path : String)
  | createEvent (h : Nat)
  | lockFileEx (h : Nat)
  | unlockFileEx (h : Nat)
  | waitForSingleObject (h : Nat) (ms : Nat)
  | closeHandle (h : Nat)
  deriving DecidableEq, Repr

/-- The Win32 error code `ERROR_FILE_EXISTS`. -/
def ERROR_FILE_EXISTS : Nat := 80

/-- Modelled from the documented Win32 `CreateFile` semantics for the
`CREATE_NEW` creation disposition (an OS facility, not package code): the
call fails with `ERROR_FILE_EXISTS` when a file already exists at the path,
and otherwise creates it and returns a fresh handle `h`. -/
def createFileCreateNew (fileExists : Bool) (h : Nat) : Except Nat Nat :=
  if fileExists then Except.error ERROR_FILE_EXISTS else Except.ok h

/-- Function `New` of the Windows backend: `syscall.CreateFile` with
`GENERIC_READ | GENERIC_WRITE`, sharing flags, the `CREATE_NEW` disposition
and `FILE_FLAG_OVERLAPPED`, returning the handle as the lock value. -/
def New (fileExists : Bool) (h : Nat) : Except Nat Nat × List WEv :=
  (createFileCreateNew fileExists h, [WEv.createFile (String.mk [])])

/-- How a call to the wait primitive came back: the object was signalled,
the wait was abandoned, the wait timed out, or the call itself failed with
an errno. -/
inductive WaitOutcome where
  | object0
  | abandoned
  | timedOut
  | failed (e : Nat)
  deriving DecidableEq, Repr

/-- Modelled from the Go standard library's `syscall.WaitForSingleObject`
wrapper (external code, not in the package): it returns the wait's event
code together with an error that is non-nil exactly when the event code is
`WAIT_FAILED` (`0xFFFFFFFF`); in particular a wait that merely timed out
(`WAIT_TIMEOUT`, code 258) comes back with a nil error. -/
def waitForSingleObject (o : WaitOutcome) : Nat × Option Nat :=
  match o with
  | WaitOutcome.object0 => (0, none)
  | WaitOutcome.abandoned => (128, none)
  | WaitOutcome.timedOut => (258, none)
  | WaitOutcome.failed e => (4294967295, some e)

/-- The milliseconds argument the source passes to the wait primitive:
`uint32(timeout.Nanoseconds() / 1000)`. Go's `/` on int64 truncates toward
zero and the `uint32` conversion keeps the low 32 bits, so this is T-division
by 1000 followed by reduction modulo `2 ^ 32`. -/
def winWaitMs (timeout : Int) : Nat :=
  (Int.emod (Int.tdiv timeout 1000) (2 ^ 32)).toNat

/-- A duration's value in the wait primitive's native unit, milliseconds:
`d.Nanoseconds() / 1e6` with Go's truncating division. This is the
conversion the surrounding contract intends, stated for comparison with
`winWaitMs`. -/
def durationMillis (d : Int) : Int :=
  Int.tdiv d 1000000

/-- Method `Lock` of the Windows backend: create the event object, issue
`lockFileEx` on `h` with the overlapped structure, wait on the event with an
infinite timeout, and close the event handle (deferred) on every path after
its creation. `createEventRes` and `lockRes` are the errno outcomes of the
two calls, `w` is the wait's outcome. -/
def Lock (h e : Nat) (createEventRes : Option Nat) (lockRes : Option Nat)
    (w : WaitOutcome) : GoResult × List WEv :=
  match createEventRes with
  | some err => (some (GoErr.errno err), [])
  | none =>
    match lockRes with
    | some err =>
      (some (GoErr.errno err),
        [WEv.createEvent e, WEv.lockFileEx h, WEv.closeHandle e])
    | none =>
      ((waitForSingleObject w).2.map GoErr.errno,
        [WEv.createEvent e, WEv.lockFileEx h,
          WEv.waitForSingleObject e 4294967295, WEv.closeHandle e])

/-- Method `LockWithTimeout` of the Windows backend: identical to `Lock`
except that the wait receives `uint32(timeout.Nanoseconds() / 1000)` instead
of `INFINITE`, and the wait's error is returned as is. -/
def LockWithTimeout (h e : Nat) (timeout : Int) (createEventRes : Option Nat)
    (lockRes : Option Nat) (w : WaitOutcome) : GoResult × List WEv :=
  match createEventRes with
  | some err => (some (GoErr.errno err), [])
  | none =>
    match lockRes with
    | some err =>
      (some (GoErr.errno err),
        [WEv.createEvent e, WEv.lockFileEx h, WEv.closeHandle e])
    | none =>
      ((waitForSingleObject w).2.map GoErr.errno,
        [WEv.createEvent e, WEv.lockFileEx h,
          WEv.waitForSingleObject e (winWaitMs timeout), WEv.closeHandle e])

/-- Method `Unlock` of the Windows backend: a single `unlockFileEx` on `h`,
whose errno outcome `res` is returned as is. -/
def Unlock (h : Nat) (res : Option Nat) : GoResult × List WEv :=
  (res.map GoErr.errno, [WEv.unlockFileEx h])

/-- Frame discipline of the Windows backend relative to the construction
handle `h`: lock and unlock calls target `h`, event-object bookkeeping
(creating, waiting on, closing a handle other than `h`) is allowed, and
creating a file or closing `h` itself is not. -/
def winFrameOK (h : Nat) : WEv → Bool
  | WEv.createFile _ => false
  | WEv.createEvent _ => true
  | WEv.lockFileEx x => x == h
  | WEv.unlockFileEx x => x == h
  | WEv.waitForSingleObject x _ => !(x == h)
  | WEv.closeHandle x => !(x == h)

end Windows

/-! ## Helper lemmas about the poll loop -/

namespace Posix

/-- The poll loop yields the sentinel only when the timeout is positive and
some later-than-first iteration observed an elapsed time strictly beyond it. -/
theorem loop_timeout_pos (fd : Nat) (timeout : Int) (since : Nat → Int)
    (flock : Nat → Option Nat) :
    ∀ fuel i, (lockWithTimeoutLoop fd timeout since flock fuel i).1
        = some (Outcome.error ErrTimeout) →
      0 < timeout ∧ ∃ j, 0 < j ∧ timeout < since j := by
  intro fuel
  induction fuel with
  | zero => intro i h; simp [lockWithTimeoutLoop] at h
  | succ fuel ih =>
    intro i h
    rw [lockWithTimeoutLoop] at h
    split at h
    · next hc => exact ⟨hc.2.1, i, hc.1, hc.2.2⟩
    · split at h
      · simp at h
      · split at h
        · exact ih (i + 1) (by simpa using h)
        · simp [ErrTimeout] at h

/-- Under a non-positive timeout and permanent contention, the poll loop
never returns: it burns all its fuel, one attempt and one 50ms sleep per
iteration. -/
theorem loop_allwb (fd : Nat) (timeout : Int) (since : Nat → Int)
    (flock : Nat → Option Nat) (hto : timeout ≤ 0)
    (hwb : ∀ j, flock j = some EWOULDBLOCK) :
    ∀ fuel i, lockWithTimeoutLoop fd timeout since flock fuel i
      = (none, List.flatten (List.replicate fuel [Ev.flockExNb fd, Ev.sleepMs 50])) := by
  intro fuel
  induction fuel with
  | zero => intro i; simp [lockWithTimeoutLoop]
  | succ fuel ih =>
    intro i
    have hc : ¬(0 < i ∧ 0 < timeout ∧ timeout < since i) := by
      rintro ⟨-, h2, -⟩
      exact absurd h2 (not_lt.mpr hto)
    rw [lockWithTimeoutLoop, if_neg hc, hwb i]
    simp [ih (i + 1), List.replicate_succ]

/-- Every event the poll loop performs respects the frame discipline: it is
a non-blocking flock on the construction-time descriptor or a sleep. -/
theorem loop_frame (fd : Nat) (timeout : Int) (since : Nat → Int)
    (flock : Nat → Option Nat) :
    ∀ fuel i, ((lockWithTimeoutLoop fd timeout since flock fuel i).2).all
        (blockingFrameOK fd) = true := by
  intro fuel
  induction fuel with
  | zero => intro i; simp [lockWithTimeoutLoop]
  | succ fuel ih =>
    intro i
    rw [lockWithTimeoutLoop]
    split
    · simp
    · split
      · simp [blockingFrameOK]
      · split
        · simp [blockingFrameOK, ih (i + 1)]
        · simp [blockingFrameOK]

end Posix

/-! ## The claims -/

/-- C1, counterexample: on the blocking backend a zero timeout on a handle
whose lock another owner holds does not make a single attempt and fail
immediately. With `timeout = 0`, an elapsed time of a full second already
observed, and every attempt reporting would-block, the loop is still running
after three iterations (first component `none`), and its trace shows three
attempts each followed by a 50ms sleep, not one failing attempt. -/
theorem c1_counterexample :
    (Posix.LockWithTimeout 3 0 (fun _ => 1000000000)
        (fun _ => some Posix.EWOULDBLOCK) 3).1 = none ∧
    (Posix.LockWithTimeout 3 0 (fun _ => 1000000000)
        (fun _ => some Posix.EWOULDBLOCK) 3).2
      = [Posix.Ev.flockExNb 3, Posix.Ev.sleepMs 50, Posix.Ev.flockExNb 3,
          Posix.Ev.sleepMs 50, Posix.Ev.flockExNb 3, Posix.Ev.sleepMs 50] :=
  ⟨rfl, rfl⟩

/-- C1, amended: on the blocking backend, a zero timeout on a handle whose
lock is held by another owner does not fail: the deadline check requires a
strictly positive timeout, so the call keeps retrying indefinitely and never
returns while every attempt reports would-block. -/
theorem c1_zero_timeout_blocks (fd : Nat) (since : Nat → Int)
    (flock : Nat → Option Nat) (fuel : Nat)
    (hwb : ∀ j, flock j = some Posix.EWOULDBLOCK) :
    (Posix.LockWithTimeout fd 0 since flock fuel).1 = none := by
  rw [Posix.LockWithTimeout, Posix.loop_allwb fd 0 since flock le_rfl hwb fuel 0]

/-- C1 witness: the amended claim at a concrete contended run. -/
theorem c1_zero_timeout_blocks_witness :
    (Posix.LockWithTimeout 4 0 (fun _ => 5)
        (fun _ => some Posix.EWOULDBLOCK) 2).1 = none :=
  c1_zero_timeout_blocks 4 (fun _ => 5) (fun _ => some Posix.EWOULDBLOCK) 2
    (fun _ => rfl)

/-- C2: on the Windows backend, when the event wait comes back as
`WAIT_TIMEOUT`, `LockWithTimeout` nonetheless returns Go's `nil` (first
component `none`): the Go wrapper of the wait primitive only reports an
error for `WAIT_FAILED`, so the timeout is swallowed and the call reports
success although the lock was not acquired. The run shown is a 50ms timeout
whose wait timed out. -/
theorem c2_wait_timeout_returns_nil :
    Windows.LockWithTimeout 1 2 50000000 none none Windows.WaitOutcome.timedOut
      = (none,
          [Windows.WEv.createEvent 2, Windows.WEv.lockFileEx 1,
            Windows.WEv.waitForSingleObject 2 (Windows.winWaitMs 50000000),
            Windows.WEv.closeHandle 2]) :=
  rfl

/-- C3: the Windows backend converts the timeout with
`uint32(timeout.Nanoseconds() / 1000)`, which yields microseconds, not the
wait primitive's native milliseconds: for a 50ms timeout the wait receives
50000 where the duration in milliseconds is 50, a factor-of-1000 mismatch
visible in the run's trace. -/
theorem c3_wait_unit_mismatch :
    Windows.winWaitMs 50000000 = 50000 ∧
    Windows.durationMillis 50000000 = 50 ∧
    (Windows.LockWithTimeout 1 2 50000000 none none
        Windows.WaitOutcome.object0).2
      = [Windows.WEv.createEvent 2, Windows.WEv.lockFileEx 1,
          Windows.WEv.waitForSingleObject 2 50000, Windows.WEv.closeHandle 2] ∧
    (50000 : Nat) ≠ 50 :=
  ⟨by decide, by decide, rfl, by decide⟩

/-- C4: a pre-existing lock file is opened without error by the POSIX
backend's `New`, but makes the Windows backend's `New` fail with
`ERROR_FILE_EXISTS`, because it opens with the `CREATE_NEW` disposition. -/
theorem c4_preexisting_file_construction :
    (Posix.New true 3).1 = Except.ok 3 ∧
    (Windows.New true 3).1 = Except.error Windows.ERROR_FILE_EXISTS :=
  ⟨rfl, rfl⟩

/-- C5: on the blocking backend, iteration 0 of `LockWithTimeout` performs
its non-blocking attempt before any elapsed-time check, for every timeout
value, so an uncontended first attempt (the flock call succeeds) returns
success with exactly one attempt in the trace, whatever the timeout. -/
theorem c5_first_attempt_before_deadline_check (fd : Nat) (timeout : Int)
    (since : Nat → Int) (flock : Nat → Option Nat) (fuel : Nat)
    (h : flock 0 = none) :
    Posix.LockWithTimeout fd timeout since flock (fuel + 1)
      = (some Posix.Outcome.success, [Posix.Ev.flockExNb fd]) := by
  have hc : ¬(0 < 0 ∧ 0 < timeout ∧ timeout < since 0) := by simp
  rw [Posix.LockWithTimeout, Posix.lockWithTimeoutLoop, if_neg hc, h]

/-- C5 witness: an uncontended lock acquired at once under a negative
timeout. -/
theorem c5_witness :
    (fun _ : Nat => (none : Option Nat)) 0 = none ∧
    Posix.LockWithTimeout 3 (-7) (fun _ => 0) (fun _ => none) 1
      = (some Posix.Outcome.success, [Posix.Ev.flockExNb 3]) :=
  ⟨rfl, c5_first_attempt_before_deadline_check 3 (-7) (fun _ => 0)
    (fun _ => none) 0 rfl⟩

/-- C6: the sentinel's `Timeout()` method returns `true`; the sentinel is
equality-comparable and differs from every OS errno error the operations
can return; and a timed-out run of the blocking `LockWithTimeout` returns
an error that is literally `ErrTimeout`, so it compares equal to the
sentinel. -/
theorem c6_sentinel_error_contract :
    timeoutErrorTimeout timeoutErrorMsg = true ∧
    (∀ n : Nat, ErrTimeout ≠ GoErr.errno n) ∧
    (Posix.LockWithTimeout 3 50 (fun _ => 100)
        (fun _ => some Posix.EWOULDBLOCK) 2).1
      = some (Posix.Outcome.error ErrTimeout) := by
  refine ⟨rfl, ?_, rfl⟩
  intro n
  simp [ErrTimeout]

/-- C7: on the blocking backend, a non-blocking attempt that reports an
errno other than would-block makes the loop return that error at once — the
trace holds that single attempt, with no sleep and no further attempt — and
`Unlock` surfaces the errno of its flock call directly. -/
theorem c7_other_error_immediate (fd : Nat) (timeout : Int)
    (since : Nat → Int) (flock : Nat → Option Nat) (fuel i n m : Nat)
    (hc : ¬(0 < i ∧ 0 < timeout ∧ timeout < since i))
    (hf : flock i = some n) (hn : n ≠ Posix.EWOULDBLOCK) :
    Posix.lockWithTimeoutLoop fd timeout since flock (fuel + 1) i
        = (some (Posix.Outcome.error (GoErr.errno n)), [Posix.Ev.flockExNb fd]) ∧
    Posix.Unlock fd (some m) = (some (GoErr.errno m), [Posix.Ev.flockUn fd]) := by
  refine ⟨?_, rfl⟩
  rw [Posix.lockWithTimeoutLoop, if_neg hc, hf]
  simp [hn]

/-- C7 witness: an `EACCES`-like errno (13) on the first attempt is
returned at once, and `Unlock` surfaces errno 9. -/
theorem c7_witness :
    Posix.lockWithTimeoutLoop 3 7 (fun _ => 3) (fun _ => some 13) 1 0
        = (some (Posix.Outcome.error (GoErr.errno 13)), [Posix.Ev.flockExNb 3]) ∧
    Posix.Unlock 3 (some 9) = (some (GoErr.errno 9), [Posix.Ev.flockUn 3]) :=
  c7_other_error_immediate 3 7 (fun _ => 3) (fun _ => some 13) 0 0 13 9
    (by decide) rfl (by decide)

/-- C8: the blocking `LockWithTimeout` returns the sentinel only when the
timeout is strictly positive and some iteration after the first observed an
elapsed time strictly greater than the timeout; it cannot produce the
sentinel otherwise. -/
theorem c8_sentinel_only_after_deadline (fd : Nat) (timeout : Int)
    (since : Nat → Int) (flock : Nat → Option Nat) (fuel : Nat)
    (h : (Posix.LockWithTimeout fd timeout since flock fuel).1
      = some (Posix.Outcome.error ErrTimeout)) :
    0 < timeout ∧ ∃ j, 0 < j ∧ timeout < since j :=
  Posix.loop_timeout_pos fd timeout since flock fuel 0 h

/-- C8 witness: a contended run with timeout 60ns and observed elapsed time
200ns does time out, and the theorem applies to it. -/
theorem c8_witness :
    0 < (60 : Int) ∧ ∃ j, 0 < j ∧ (60 : Int) < (fun _ : Nat => (200 : Int)) j :=
  c8_sentinel_only_after_deadline 2 60 (fun _ => 200)
    (fun _ => some Posix.EWOULDBLOCK) 2 rfl

/-- C9: no lock operation opens a path, reopens the descriptor, or closes
it. On the POSIX backend every event of `Lock`, `Unlock` and
`LockWithTimeout` is a flock call on the construction-time descriptor or a
sleep; on the Windows backend `Unlock`, `Lock` and `LockWithTimeout` target
only the construction-time handle `h` with their lock calls, create no
file, and close only the per-attempt event object `e`, never `h`. -/
theorem c9_descriptor_frame (fd h e : Nat) (r1 r2 r3 : Option Nat)
    (timeout : Int) (since : Nat → Int) (flock : Nat → Option Nat)
    (fuel : Nat) (cres lres cres2 lres2 : Option Nat)
    (w w2 : Windows.WaitOutcome) (hne : e ≠ h) :
    ((Posix.Lock fd r1).2).all (Posix.blockingFrameOK fd) = true ∧
    ((Posix.Unlock fd r2).2).all (Posix.blockingFrameOK fd) = true ∧
    ((Posix.LockWithTimeout fd timeout since flock fuel).2).all
        (Posix.blockingFrameOK fd) = true ∧
    ((Windows.Unlock h r3).2).all (Windows.winFrameOK h) = true ∧
    ((Windows.Lock h e cres2 lres2 w2).2).all (Windows.winFrameOK h) = true ∧
    ((Windows.LockWithTimeout h e timeout cres lres w).2).all
        (Windows.winFrameOK h) = true := by
  have hbe : (e == h) = false := by simpa using hne
  refine ⟨by simp [Posix.Lock, Posix.blockingFrameOK],
    by simp [Posix.Unlock, Posix.blockingFrameOK],
    Posix.loop_frame fd timeout since flock fuel 0,
    by simp [Windows.Unlock, Windows.winFrameOK], ?_, ?_⟩
  · cases cres2 <;> cases lres2 <;>
      simp [Windows.Lock, Windows.winFrameOK, hbe]
  · cases cres <;> cases lres <;>
      simp [Windows.LockWithTimeout, Windows.winFrameOK, hbe]

/-- C9 witness: the frame discipline at a concrete instantiation with
distinct event and file handles. -/
theorem c9_witness :
    ((Posix.Lock 1 (some 4)).2).all (Posix.blockingFrameOK 1) = true ∧
    ((Posix.Unlock 1 none).2).all (Posix.blockingFrameOK 1) = true ∧
    ((Posix.LockWithTimeout 1 20 (fun _ => 30)
        (fun _ => some Posix.EWOULDBLOCK) 2).2).all
      (Posix.blockingFrameOK 1) = true ∧
    ((Windows.Unlock 1 (some 5)).2).all (Windows.winFrameOK 1) = true ∧
    ((Windows.Lock 1 2 none none Windows.WaitOutcome.object0).2).all
        (Windows.winFrameOK 1) = true ∧
    ((Windows.LockWithTimeout 1 2 20 none none
        Windows.WaitOutcome.timedOut).2).all (Windows.winFrameOK 1) = true :=
  c9_descriptor_frame 1 1 2 (some 4) none (some 5) 20 (fun _ => 30)
    (fun _ => some Posix.EWOULDBLOCK) 2 none none none none
    Windows.WaitOutcome.timedOut Windows.WaitOutcome.object0 (by decide)

/-- C10: on the blocking backend a non-positive timeout disables the
deadline check: under permanent contention `LockWithTimeout` never returns
the sentinel — it never returns at all within any fuel bound, performing one
would-block attempt and one 50ms sleep per iteration. -/
theorem c10_nonpositive_timeout_blocks (fd : Nat) (timeout : Int)
    (since : Nat → Int) (flock : Nat → Option Nat) (fuel : Nat)
    (hto : timeout ≤ 0) (hwb : ∀ j, flock j = some Posix.EWOULDBLOCK) :
    (Posix.LockWithTimeout fd timeout since flock fuel).1
        ≠ some (Posix.Outcome.error ErrTimeout) ∧
    Posix.LockWithTimeout fd timeout since flock fuel
      = (none, List.flatten (List.replicate fuel
          [Posix.Ev.flockExNb fd, Posix.Ev.sleepMs 50])) := by
  have hall : Posix.LockWithTimeout fd timeout since flock fuel
      = (none, List.flatten (List.replicate fuel
          [Posix.Ev.flockExNb fd, Posix.Ev.sleepMs 50])) := by
    rw [Posix.LockWithTimeout]
    exact Posix.loop_allwb fd timeout since flock hto hwb fuel 0
  refine ⟨?_, hall⟩
  rw [hall]
  simp

/-- C10 witness: a negative timeout under permanent contention, still
looping after two iterations with the expected attempt-sleep trace. -/
theorem c10_witness :
    (Posix.LockWithTimeout 5 (-1) (fun _ => 0)
        (fun _ => some Posix.EWOULDBLOCK) 2).1
        ≠ some (Posix.Outcome.error ErrTimeout) ∧
    Posix.LockWithTimeout 5 (-1) (fun _ => 0)
        (fun _ => some Posix.EWOULDBLOCK) 2
      = (none, List.flatten (List.replicate 2
          [Posix.Ev.flockExNb 5, Posix.Ev.sleepMs 50])) :=
  c10_nonpositive_timeout_blocks 5 (-1) (fun _ => 0)
    (fun _ => some Posix.EWOULDBLOCK) 2 (by decide) (fun _ => rfl)

end Fslock
